import Mathlib

/-!
Verification development for the travel-safety scoring pipeline
(`app.py`): risk assessment, recommendation engine, alert generation,
and severity-quota alert selection.

Modelling conventions:
* Python floats are modelled as exact rationals (`ℚ`); all constants in
  the source are short decimals, and none of the verified properties
  hinges on binary floating-point rounding.
* `datetime.now().month` is modelled as an explicit `month : Nat`
  parameter, and the formatted timestamp as an explicit `now : String`.
* The pseudo-random source (`random.*`) is modelled as an explicit
  oracle `g : Nat → Nat` together with an index that advances by one for
  every draw the source code performs; a weighted choice consumes one
  draw, exactly like the source's single `random.choices` call.
-/

/-- Python's `needle in hay` check on lists of characters: `needle`
occurs contiguously inside `hay`.  `leadsWith n h` means `h` starts
with `n`. -/
def leadsWith : List Char → List Char → Bool
  | [], _ => true
  | _ :: _, [] => false
  | a :: as, b :: bs => a == b && leadsWith as bs

/-- `occursIn n h` : `n` occurs contiguously somewhere in `h`. -/
def occursIn (needle hay : List Char) : Bool :=
  match hay with
  | [] => leadsWith needle []
  | _ :: t => leadsWith needle hay || occursIn needle t

/-- Python's substring operator `sub in s` (also `s.find(sub) >= 0`). -/
def pyIn (sub s : String) : Bool :=
  occursIn sub.toList s.toList

/-- Python's `str.lower()` (ASCII case folding, applied per character). -/
def lower (s : String) : String :=
  ⟨s.data.map Char.toLower⟩

/-- The model state of `SafetyRiskModel.__init__`: per-country base
risks, region-keyword modifiers, the month captured at construction
time, and the three seasonal month windows. -/
structure SafetyRiskModel where
  country_risk_factors : List (String × ℚ)
  region_modifiers : List (String × ℚ)
  current_month : Nat
  north_summer : List Nat
  north_winter : List Nat
  monsoon : List Nat

/-- The concrete tables hard-coded in `SafetyRiskModel.__init__`,
with the month taken from the clock at construction time. -/
def mkModel (month : Nat) : SafetyRiskModel where
  country_risk_factors :=
    [("afghanistan", 9/10), ("australia", 2/10), ("brazil", 5/10), ("canada", 2/10),
     ("china", 4/10), ("egypt", 6/10), ("france", 3/10), ("germany", 2/10),
     ("india", 5/10), ("italy", 3/10), ("japan", 2/10), ("mexico", 6/10),
     ("russia", 6/10), ("spain", 3/10), ("thailand", 4/10), ("ukraine", 8/10),
     ("united kingdom", 3/10), ("united states", 4/10), ("venezuela", 7/10)]
  region_modifiers :=
    [("city", 1/10), ("rural", -(5/100)), ("coastal", 3/100),
     ("mountain", 5/100), ("border", 15/100)]
  current_month := month
  north_summer := [6, 7, 8, 9]
  north_winter := [12, 1, 2, 3]
  monsoon := [6, 7, 8, 9]

/-- `SafetyRiskModel.get_base_country_risk`: lowercase the country,
try a direct dictionary hit, then a substring match in either
direction over the dictionary in insertion order, else `0.5`. -/
def get_base_country_risk (m : SafetyRiskModel) (country : String) : ℚ :=
  let c := lower country
  match m.country_risk_factors.lookup c with
  | some r => r
  | none =>
    match m.country_risk_factors.find? (fun p => pyIn p.1 c || pyIn c p.1) with
    | some p => p.2
    | none => 1/2

/-- `SafetyRiskModel.analyze_seasonal_risk`: month-window bonuses for
hard-coded country lists (exact lowercase membership). -/
def analyze_seasonal_risk (m : SafetyRiskModel) (country : String) : ℚ :=
  let c := lower country
  (if m.north_summer.contains m.current_month &&
      ["united states", "mexico", "japan", "china", "philippines"].contains c
   then (1/10 : ℚ) else 0)
  + (if m.north_winter.contains m.current_month &&
        ["canada", "russia", "norway", "sweden", "finland", "iceland"].contains c
     then (15/100 : ℚ) else 0)
  + (if m.monsoon.contains m.current_month &&
        ["india", "thailand", "vietnam", "myanmar", "bangladesh"].contains c
     then (2/10 : ℚ) else 0)

/-- `SafetyRiskModel.analyze_location_context`: city-tier bonus
(substring match, high tier takes precedence) plus region-keyword
modifiers.  Note the source checks the keywords against the lowered
city but against the country *as given* (it never lowercases
`country` here). -/
def analyze_location_context (m : SafetyRiskModel) (country city : String) : ℚ :=
  let c := lower city
  let tier : ℚ :=
    if (["caracas", "kabul", "mogadishu", "damascus"].any (fun h => pyIn h c))
    then 2/10
    else if (["rio de janeiro", "johannesburg", "nairobi", "karachi"].any (fun h => pyIn h c))
    then 1/10
    else 0
  tier + (m.region_modifiers.foldl
    (fun acc p => if pyIn p.1 c || pyIn p.1 country then acc + p.2 else acc) 0)

/-- Result record of `assess_risk`. -/
structure RiskAssessment where
  risk_score : ℚ
  confidence : ℚ
  factors : List String
deriving DecidableEq

/-- `SafetyRiskModel.assess_risk`: empty country short-circuits to the
fixed neutral result; otherwise base + seasonal + context is clamped to
`[0.1, 0.95]`, confidence is `0.8` on a *direct dictionary hit of the
raw country string* else `0.5`, minus `0.1` when no city is given, and
factors are appended in the fixed order of the source. -/
def assess_risk (m : SafetyRiskModel) (country : String) (city : String) : RiskAssessment :=
  if country = "" then
    { risk_score := 1/2, confidence := 3/10, factors := ["insufficient data"] }
  else
    let base_risk := get_base_country_risk m country
    let seasonal_risk := analyze_seasonal_risk m country
    let context_risk := analyze_location_context m country city
    let overall_risk := min (max (base_risk + seasonal_risk + context_risk) (1/10)) (95/100)
    let confidence : ℚ := if (m.country_risk_factors.lookup country).isSome then 8/10 else 1/2
    let confidence := if city = "" then confidence - 1/10 else confidence
    let factors :=
      (if base_risk > 6/10 then ["general country advisory"] else [])
      ++ (if seasonal_risk > 5/100 then ["seasonal weather conditions"] else [])
      ++ (if context_risk > 5/100 then ["specific location risks"] else [])
    let factors :=
      if factors = [] ∧ overall_risk > 4/10 then ["combined risk factors"] else factors
    { risk_score := overall_risk, confidence := confidence, factors := factors }

/-- `TravelRecommendationEngine.safety_phrases`. -/
def safety_phrases : List String :=
  ["Stay aware of your surroundings at all times",
   "Keep emergency contacts readily available",
   "Register with your embassy before traveling",
   "Research local laws and customs before your trip",
   "Keep copies of important documents",
   "Share your itinerary with someone you trust",
   "Avoid displaying valuable items in public",
   "Use reputable transportation services",
   "Stay in well-reviewed accommodations",
   "Maintain communication with friends and family"]

/-- `TravelRecommendationEngine.high_risk_recommendations`. -/
def high_risk_recommendations : List String :=
  ["Consider postponing non-essential travel",
   "Maintain low profile and avoid crowds",
   "Prepare emergency evacuation plans",
   "Check in regularly with your embassy",
   "Limit movements to daylight hours in unfamiliar areas"]

/-- `weather_recommendations["storm"]`. -/
def storm_recs : List String :=
  ["Secure loose objects", "Stay indoors during severe weather", "Keep emergency supplies ready"]

/-- `weather_recommendations["heat"]`. -/
def heat_recs : List String :=
  ["Stay hydrated", "Avoid extended exposure during peak hours", "Know signs of heat illness"]

/-- `weather_recommendations["cold"]`. -/
def cold_recs : List String :=
  ["Dress in layers", "Be aware of icy conditions", "Carry emergency supplies in your vehicle"]

/-- `weather_recommendations["flood"]`. -/
def flood_recs : List String :=
  ["Avoid flood-prone areas", "Never drive through standing water", "Move to higher ground if needed"]

/-- `TravelRecommendationEngine.generate_personalized_tips`.  The call
`random.sample(pool, k)` (draw `k` distinct elements of `pool`) is
modelled by an abstract sampler `sample pool k`; theorems assume of it
only what `random.sample` guarantees (distinct elements taken from the
pool).  `city` is accepted and ignored, exactly as in the source. -/
def generate_personalized_tips (sample : List String → Nat → List String)
    (month : Nat) (country city : String) (ra : RiskAssessment) : List String :=
  let recommendations := sample safety_phrases (min 3 safety_phrases.length)
  let recommendations :=
    if ra.risk_score > 6/10 then
      recommendations ++ sample high_risk_recommendations (min 2 high_risk_recommendations.length)
    else recommendations
  if "seasonal weather conditions" ∈ ra.factors then
    let summer_winter :=
      if month ∈ [6, 7, 8] then
        (if lower country ∈ ["united states", "mexico", "caribbean"] then sample storm_recs 1 else [])
        ++ (if lower country ∈ ["egypt", "india", "saudi arabia"] then sample heat_recs 1 else [])
      else if month ∈ [12, 1, 2] then
        (if lower country ∈ ["canada", "russia", "sweden", "norway"] then sample cold_recs 1 else [])
      else []
    let monsoonal :=
      if month ∈ [6, 7, 8, 9] ∧ lower country ∈ ["india", "thailand", "vietnam"] then
        sample flood_recs 1
      else []
    recommendations ++ summer_winter ++ monsoonal
  else recommendations

/-- Alert severities used by `ai_analysis` (`'low' | 'medium' | 'high'`). -/
inductive Severity
  | low
  | medium
  | high
deriving DecidableEq

/-- An alert dictionary as built by `ai_analysis`. -/
structure Alert where
  type : String
  severity : Severity
  title : String
  description : String
  source : String
  timestamp : String
deriving DecidableEq

/-- `{city if city else country}` in the alert templates. -/
def cityOr (city country : String) : String :=
  if city = "" then country else city

/-- `num_alerts = int(2 + risk_score * 5)`: Python `int()` truncates
toward zero. -/
def num_alerts_of (s : ℚ) : Int :=
  if 0 ≤ (2 + s * 5 : ℚ) then ⌊(2 + s * 5 : ℚ)⌋ else -⌊(-(2 + s * 5) : ℚ)⌋

/-- The severity-quota subset selection of `ai_analysis` (the
`len(all_alerts) > num_alerts` block): keep every high-severity alert,
then fill the remaining budget from the medium tier, then the low tier,
in pool order. -/
def select_alerts (all_alerts : List Alert) (num_alerts : Nat) : List Alert :=
  if all_alerts.length > num_alerts then
    let high_severity := all_alerts.filter (fun a => decide (a.severity = Severity.high))
    let medium_severity := all_alerts.filter (fun a => decide (a.severity = Severity.medium))
    let low_severity := all_alerts.filter (fun a => decide (a.severity = Severity.low))
    let selected := high_severity
    let remaining := num_alerts - selected.length
    let selected :=
      if remaining > 0 ∧ medium_severity ≠ [] then
        selected ++ medium_severity.take (min remaining medium_severity.length)
      else selected
    let remaining := num_alerts - selected.length
    if remaining > 0 ∧ low_severity ≠ [] then
      selected ++ low_severity.take (min remaining low_severity.length)
    else selected
  else all_alerts

/-- Map a drawn index onto `['low', 'medium', 'high']` for the
`random.choices` severity draw. -/
def sevOf : Nat → Severity
  | 0 => Severity.low
  | 1 => Severity.medium
  | _ => Severity.high

/-- The weather block of `ai_analysis` (entered when the weather filter
is on).  `sev` is the severity drawn up front by `random.choices`; the
weights of that draw depend on whether `risk_score > 0.7` but affect
only the distribution, not which value each oracle index yields.  The
generic advisory is appended exactly when no seasonal template matched,
mirroring the source's `not any(alert['type'] == 'weather' ...)` check
(at that point `all_alerts` holds only this block's alerts). -/
def weather_section (sev : Severity) (month : Nat) (now country city : String)
    (factors : List String) (risk_score : ℚ) : List Alert :=
  if "seasonal weather conditions" ∈ factors then
    let seasonal : List Alert :=
      if month ∈ [6, 7, 8] then
        if lower country ∈ ["united states", "mexico", "caribbean"] then
          [{ type := "weather",
             severity := if risk_score > 6/10 then Severity.high else Severity.medium,
             title := "Hurricane Risk Alert",
             description := "Hurricane season active in " ++ country ++ ". Monitor local forecasts and have evacuation plan ready.",
             source := "AI Weather Analysis", timestamp := now }]
        else if lower country ∈ ["india", "thailand", "vietnam", "philippines"] then
          [{ type := "weather",
             severity := if risk_score > 7/10 then Severity.high else Severity.medium,
             title := "Monsoon Season Alert",
             description := "Heavy rainfall and potential flooding in " ++ country ++ ". Avoid low-lying areas and stay informed about weather conditions.",
             source := "AI Weather Analysis", timestamp := now }]
        else if lower country ∈ ["egypt", "saudi arabia", "united arab emirates"] then
          [{ type := "weather", severity := Severity.medium,
             title := "Extreme Heat Warning",
             description := "Dangerous heat levels in " ++ country ++ ". Limit outdoor activities, stay hydrated, and seek air-conditioned environments.",
             source := "AI Temperature Analysis", timestamp := now }]
        else []
      else if month ∈ [12, 1, 2] then
        if lower country ∈ ["canada", "russia", "norway", "sweden", "finland"] then
          [{ type := "weather", severity := Severity.medium,
             title := "Winter Storm Alert",
             description := "Severe winter conditions expected in " ++ country ++ ". Prepare for potential travel disruptions and power outages.",
             source := "AI Weather Pattern Analysis", timestamp := now }]
        else []
      else []
    if seasonal.any (fun a => decide (a.type = "weather")) then seasonal
    else
      seasonal ++
        [{ type := "weather", severity := sev,
           title := "Weather Advisory for " ++ country,
           description := "Variable weather conditions may affect travel plans in " ++ cityOr city country ++ ". Monitor local forecasts.",
           source := "AI Weather Analysis", timestamp := now }]
  else
    [{ type := "weather", severity := sev,
       title := "Weather Conditions in " ++ country,
       description := "No significant weather concerns identified for " ++ cityOr city country ++ " at this time.",
       source := "AI Weather Analysis", timestamp := now }]

/-- The three causes the medium advisory picks between with
`random.choice`. -/
def advisory_reasons : List String :=
  ["political tensions", "crime concerns", "health risks"]

/-- The advisory block of `ai_analysis`: one band-dependent base
advisory, then either the extreme-risk-country alert or (note the
source's `elif`) the high-crime-city alert.  Returns the alerts and the
next oracle index; only the middle band consumes a draw. -/
def advisory_section (g : Nat → Nat) (i : Nat) (risk_score : ℚ)
    (now country city : String) : List Alert × Nat :=
  let base :=
    if risk_score > 7/10 then
      ([{ type := "advisory", severity := Severity.high,
          title := "High-Risk Travel Advisory for " ++ country,
          description := "Exercise extreme caution when traveling to " ++ cityOr city country ++ ". Consider postponing non-essential travel.",
          source := "AI Risk Analysis", timestamp := now }], i)
    else if risk_score > 4/10 then
      ([{ type := "advisory", severity := Severity.medium,
          title := "Travel Advisory for " ++ country,
          description := "Exercise increased caution in " ++ cityOr city country ++ " due to " ++ advisory_reasons.getD (g i % 3) "" ++ ".",
          source := "AI Security Analysis", timestamp := now }], i + 1)
    else
      ([{ type := "advisory", severity := Severity.low,
          title := "General Travel Notice for " ++ country,
          description := "Normal security precautions advised when traveling to " ++ cityOr city country ++ ".",
          source := "AI Advisory System", timestamp := now }], i)
  let special : List Alert :=
    if lower country ∈ ["afghanistan", "syria", "yemen", "somalia"] then
      [{ type := "advisory", severity := Severity.high,
         title := "Extreme Risk Warning",
         description := "Avoid all travel to this destination due to armed conflict, terrorism risk, and kidnapping threat.",
         source := "AI Conflict Analysis", timestamp := now }]
    else if city ≠ "" ∧ lower city ∈ ["rio de janeiro", "caracas", "kabul", "tijuana"] then
      [{ type := "advisory", severity := Severity.high,
         title := "City Safety Alert for " ++ city,
         description := "High crime rates reported in " ++ city ++ ". Avoid specific neighborhoods and exercise heightened awareness.",
         source := "AI Crime Pattern Analysis", timestamp := now }]
    else []
  (base.1 ++ special, base.2)

/-- The five incident templates of `ai_analysis` (title, description). -/
def incident_types (country city : String) : List (String × String) :=
  [("Political Demonstration",
    "Planned protests in " ++ cityOr city "the capital" ++ ". Avoid central areas and government buildings."),
   ("Transportation Disruption",
    "Public transit strikes affecting " ++ cityOr city country ++ ". Plan alternative transportation."),
   ("Public Health Concern",
    "Localized disease outbreak reported. Follow proper hygiene measures and local health advisories."),
   ("Security Operation",
    "Increased security presence in certain areas. Carry identification and comply with authorities."),
   ("Civil Unrest",
    "Tensions reported in specific neighborhoods. Stay informed via local news and avoid affected areas.")]

/-- The incident block of `ai_analysis`: for `risk_score > 0.6`, a
`randint(1,3)` count of alerts drawn with replacement from the template
pool; otherwise one generic low alert with probability one half.
Returns the alerts and the next oracle index. -/
def incident_section (g : Nat → Nat) (i : Nat) (risk_score : ℚ)
    (now country city : String) : List Alert × Nat :=
  if risk_score > 6/10 then
    let incident_count := 1 + g i % 3
    ((List.range incident_count).map (fun k =>
      let incident := (incident_types country city).getD (g (i + 1 + k) % 5) ("", "")
      { type := "incident",
        severity := if risk_score > 7/10 then Severity.medium else Severity.low,
        title := incident.1, description := incident.2,
        source := "AI Incident Detection", timestamp := now }),
     i + 1 + incident_count)
  else
    if g i % 2 = 0 then
      ([{ type := "incident", severity := Severity.low,
          title := "Minor Local Event",
          description := "Small public gathering expected in " ++ cityOr city country ++ ". No significant disruptions anticipated.",
          source := "AI Event Analysis", timestamp := now }], i + 1)
    else ([], i + 1)

/-- The candidate alert pool built by `ai_analysis` before subset
selection: weather, advisory and incident blocks in order, each guarded
by its filter flag, threading the random oracle index through the draws
in source order. -/
def generate_pool (g : Nat → Nat) (month : Nat) (now country city : String)
    (fw fa fi : Bool) : List Alert :=
  let ra := assess_risk (mkModel month) country city
  let risk_score := ra.risk_score
  let w : List Alert × Nat :=
    if fw then (weather_section (sevOf (g 0 % 3)) month now country city ra.factors risk_score, 1)
    else ([], 0)
  let a : List Alert × Nat :=
    if fa then advisory_section g w.2 risk_score now country city else ([], w.2)
  let inc : List Alert × Nat :=
    if fi then incident_section g a.2 risk_score now country city else ([], a.2)
  w.1 ++ a.1 ++ inc.1

/-- The `/api/ai-analysis` response core: the risk assessment and the
selected alerts (`num_alerts = int(2 + risk_score * 5)`). -/
def ai_analysis (g : Nat → Nat) (month : Nat) (now country city : String)
    (fw fa fi : Bool) : RiskAssessment × List Alert :=
  let ra := assess_risk (mkModel month) country city
  let pool := generate_pool g month now country city fw fa fi
  (ra, select_alerts pool (num_alerts_of ra.risk_score).toNat)

/-- A fixed test pool: two high- and five medium-severity alerts in
mixed order. -/
def sample_pool : List Alert :=
  [{ type := "advisory", severity := Severity.medium, title := "m1",
     description := "", source := "", timestamp := "" },
   { type := "advisory", severity := Severity.high, title := "h1",
     description := "", source := "", timestamp := "" },
   { type := "advisory", severity := Severity.medium, title := "m2",
     description := "", source := "", timestamp := "" },
   { type := "advisory", severity := Severity.medium, title := "m3",
     description := "", source := "", timestamp := "" },
   { type := "advisory", severity := Severity.high, title := "h2",
     description := "", source := "", timestamp := "" },
   { type := "advisory", severity := Severity.medium, title := "m4",
     description := "", source := "", timestamp := "" },
   { type := "advisory", severity := Severity.medium, title := "m5",
     description := "", source := "", timestamp := "" }]
/-- Numeric severity rank: high = 2, medium = 1, low = 0. -/
def sevRank : Severity → Nat
  | Severity.low => 0
  | Severity.medium => 1
  | Severity.high => 2
/-- A deterministic stand-in for `random.sample`: take the first `k`
pool elements. -/
def take_sampler : List String → Nat → List String := fun p k => p.take k

/-- The clamp in `assess_risk` keeps the score inside `[0.1, 0.95]` for
any model state, and the empty-country short-circuit value `0.5` also
lies inside. -/
theorem risk_score_bounds (m : SafetyRiskModel) (country city : String) :
    1/10 ≤ (assess_risk m country city).risk_score ∧
      (assess_risk m country city).risk_score ≤ 95/100 := by
  unfold assess_risk
  split
  · norm_num
  · exact ⟨le_min (le_max_right _ _) (by norm_num), min_le_right _ _⟩

/-- The confidence computed by `assess_risk` is one of
`0.3, 0.4, 0.5, 0.7, 0.8` for any model state. -/
theorem confidence_cases (m : SafetyRiskModel) (country city : String) :
    (assess_risk m country city).confidence = 3/10 ∨
    (assess_risk m country city).confidence = 2/5 ∨
    (assess_risk m country city).confidence = 1/2 ∨
    (assess_risk m country city).confidence = 7/10 ∨
    (assess_risk m country city).confidence = 4/5 := by
  unfold assess_risk
  split
  · norm_num
  · dsimp only
    split <;> split <;> norm_num

/-- C1: for every input (country, city) — and any month — the risk
assessment returned by `assess_risk` has `risk_score ∈ [0.1, 0.95]` and
`confidence ∈ [0, 1]`, however the base/seasonal/context modifiers
stack. -/
theorem c1_bounds (month : Nat) (country city : String) :
    1/10 ≤ (assess_risk (mkModel month) country city).risk_score ∧
    (assess_risk (mkModel month) country city).risk_score ≤ 95/100 ∧
    0 ≤ (assess_risk (mkModel month) country city).confidence ∧
    (assess_risk (mkModel month) country city).confidence ≤ 1 := by
  obtain ⟨h1, h2⟩ := risk_score_bounds (mkModel month) country city
  refine ⟨h1, h2, ?_, ?_⟩ <;>
    rcases confidence_cases (mkModel month) country city with h | h | h | h | h <;>
      rw [h] <;> norm_num

/-- C6: with an empty country, `assess_risk` returns exactly
`{score := 0.5, confidence := 0.3, factors := ["insufficient data"]}` —
for every city and every knowledge-base state, i.e. without consulting
the knowledge base at all. -/
theorem c6_empty_country (m : SafetyRiskModel) (city : String) :
    assess_risk m "" city =
      { risk_score := 1/2, confidence := 3/10, factors := ["insufficient data"] } := rfl

/-- A lookup in an association list succeeds exactly when the key is
among the stored keys. -/
theorem lookup_isSome_iff (a : String) (l : List (String × ℚ)) :
    (l.lookup a).isSome = true ↔ a ∈ l.map Prod.fst := by
  induction l with
  | nil => simp [List.lookup]
  | cons p t ih =>
    obtain ⟨k, v⟩ := p
    by_cases h : a = k
    · subst h; simp [List.lookup]
    · have hb : (a == k) = false := beq_false_of_ne h
      simp [List.lookup, hb, h, ih]

/-- C5 counterexample: the known country "France", spelled with a
capital letter and with no city, gets confidence 0.4 — not the 0.7 the
claim predicts for a knowledge-base match under case-insensitive
comparison. -/
theorem c5_counterexample :
    ((assess_risk (mkModel 1) "France" "").confidence = 7/10) ↔ False := by
  with_unfolding_all decide

/-- C5 (amended): confidence starts at 0.8 only when the country string
*as given* is exactly one of the (lowercase) knowledge-base keys — the
check is case-sensitive and accepts no substring match — else 0.5; in
both cases it drops by exactly 0.1 when the city is absent.  In
particular a known country typed in lowercase with no city gets 0.7. -/
theorem c5_amended (month : Nat) (country city : String) (h : country ≠ "") :
    (country ∈ (mkModel month).country_risk_factors.map Prod.fst →
      (assess_risk (mkModel month) country city).confidence =
        if city = "" then 7/10 else 4/5) ∧
    (country ∉ (mkModel month).country_risk_factors.map Prod.fst →
      (assess_risk (mkModel month) country city).confidence =
        if city = "" then 2/5 else 1/2) := by
  unfold assess_risk
  rw [if_neg h]
  dsimp only
  constructor
  · intro hmem
    have hs : ((mkModel month).country_risk_factors.lookup country).isSome = true :=
      (lookup_isSome_iff country _).mpr hmem
    rw [if_pos hs]
    split <;> norm_num
  · intro hmem
    have hs : ¬ ((mkModel month).country_risk_factors.lookup country).isSome = true :=
      fun hc => hmem ((lookup_isSome_iff country _).mp hc)
    rw [if_neg hs]
    split <;> norm_num

/-- Witness for C5 (amended): the lowercase key "france" with no city
yields confidence 0.7. -/
theorem c5_amended_witness :
    ("france" : String) ≠ "" ∧ (assess_risk (mkModel 1) "france" "").confidence = 7/10 := by
  refine ⟨by decide, ?_⟩
  have h := (c5_amended 1 "france" "" (by decide)).1 (by with_unfolding_all decide)
  simpa using h

/-- C8 counterexample: with an empty country the returned factors are
`["insufficient data"]` — none of the three specific factors is
present and the score `0.5` exceeds `0.4`, yet the placeholder
"combined risk factors" is absent, so the claimed equivalence fails on
this input. -/
theorem c8_counterexample :
    (("combined risk factors" ∈ (assess_risk (mkModel 1) "" "").factors ↔
       ("general country advisory" ∉ (assess_risk (mkModel 1) "" "").factors ∧
        "seasonal weather conditions" ∉ (assess_risk (mkModel 1) "" "").factors ∧
        "specific location risks" ∉ (assess_risk (mkModel 1) "" "").factors ∧
        (assess_risk (mkModel 1) "" "").risk_score > 4/10))) ↔ False := by
  with_unfolding_all decide

/-- C8 (amended): for every input with a *non-empty* country, the
factors list contains "combined risk factors" iff none of the three
specific factors is present and the final risk score exceeds 0.4.  (The
empty-country short circuit returns `["insufficient data"]` instead.) -/
theorem c8_amended (month : Nat) (country city : String) (h : country ≠ "") :
    ("combined risk factors" ∈ (assess_risk (mkModel month) country city).factors ↔
      ("general country advisory" ∉ (assess_risk (mkModel month) country city).factors ∧
       "seasonal weather conditions" ∉ (assess_risk (mkModel month) country city).factors ∧
       "specific location risks" ∉ (assess_risk (mkModel month) country city).factors ∧
       (assess_risk (mkModel month) country city).risk_score > 4/10)) := by
  unfold assess_risk
  rw [if_neg h]
  dsimp only
  split <;> split <;> split <;>
    first
      | (rw [if_neg (by simp)]
         refine iff_of_false (by decide) (fun hc => ?_)
         first
           | exact hc.1 (by decide)
           | exact hc.2.1 (by decide)
           | exact hc.2.2.1 (by decide))
      | (simp only [List.append_nil, List.nil_append]
         split
         · rename_i hcond
           exact iff_of_true (by decide) ⟨by decide, by decide, by decide, hcond.2⟩
         · rename_i hcond
           exact iff_of_false (by decide) (fun hc => hcond ⟨by trivial, hc.2.2.2⟩))

/-- C3 counterexample: for the reachable assessment of ("france", ""),
`risk_score = 0.3`, the source computes `int(2 + 0.3*5) = int(3.5) = 3`
alerts, while `clamp(round(3.5), 2, 7) = 4`. -/
theorem c3_counterexample :
    (num_alerts_of ((assess_risk (mkModel 5) "france" "").risk_score) =
      max 2 (min (round ((2 : ℚ) + (assess_risk (mkModel 5) "france" "").risk_score * 5)) 7)) ↔
    False := by
  with_unfolding_all decide

/-- C3 (amended): the alert selector's target count is
`int(2 + risk_score * 5)`, i.e. the *floor* (truncation), not a
rounding, and it is never clamped; for every reachable risk score it
lies between 2 and 6 — the value 7 is unreachable. -/
theorem c3_amended (month : Nat) (country city : String) :
    num_alerts_of ((assess_risk (mkModel month) country city).risk_score) =
      ⌊(2 : ℚ) + (assess_risk (mkModel month) country city).risk_score * 5⌋ ∧
    2 ≤ num_alerts_of ((assess_risk (mkModel month) country city).risk_score) ∧
    num_alerts_of ((assess_risk (mkModel month) country city).risk_score) ≤ 6 := by
  obtain ⟨h1, h2⟩ := risk_score_bounds (mkModel month) country city
  set s := (assess_risk (mkModel month) country city).risk_score with hs
  have hpos : (0:ℚ) ≤ 2 + s * 5 := by linarith
  have heq : num_alerts_of s = ⌊(2:ℚ) + s * 5⌋ := by
    unfold num_alerts_of; rw [if_pos hpos]
  refine ⟨heq, ?_, ?_⟩
  · rw [heq]
    exact Int.le_floor.mpr (by push_cast; linarith)
  · rw [heq]
    have hlt : ⌊(2:ℚ) + s * 5⌋ < 7 := Int.floor_lt.mpr (by push_cast; linarith)
    omega

/-- Taking `min n (length l)` elements is the same as taking `n`. -/
theorem take_min_length {α : Type} (n : Nat) (l : List α) :
    l.take (min n l.length) = l.take n := by
  rcases le_total n l.length with h | h
  · rw [min_eq_left h]
  · rw [min_eq_right h, List.take_length, List.take_of_length_le h]

/-- Every alert falls in exactly one of the three severity tiers, so
the tier filters partition the pool. -/
theorem length_filter_partition (pool : List Alert) :
    pool.length =
      (pool.filter (fun a => decide (a.severity = Severity.high))).length
      + (pool.filter (fun a => decide (a.severity = Severity.medium))).length
      + (pool.filter (fun a => decide (a.severity = Severity.low))).length := by
  induction pool with
  | nil => rfl
  | cons a t ih =>
    cases h : a.severity <;> simp [List.filter_cons, h, ih] <;> omega

/-- Closed form of the oversized-pool branch of `select_alerts`: all
high alerts, then a prefix of the medium tier sized by the remaining
budget, then a prefix of the low tier sized by what is still left. -/
theorem select_alerts_structure (pool : List Alert) (num : Nat) (h : num < pool.length) :
    select_alerts pool num =
      pool.filter (fun a => decide (a.severity = Severity.high))
      ++ (pool.filter (fun a => decide (a.severity = Severity.medium))).take
           (num - (pool.filter (fun a => decide (a.severity = Severity.high))).length)
      ++ (pool.filter (fun a => decide (a.severity = Severity.low))).take
           (num - (pool.filter (fun a => decide (a.severity = Severity.high))).length
            - ((pool.filter (fun a => decide (a.severity = Severity.medium))).take
                (num - (pool.filter (fun a => decide (a.severity = Severity.high))).length)).length) := by
  unfold select_alerts
  rw [if_pos (by omega)]
  dsimp only
  set H := pool.filter (fun a => decide (a.severity = Severity.high)) with hH
  set M := pool.filter (fun a => decide (a.severity = Severity.medium)) with hM
  set L := pool.filter (fun a => decide (a.severity = Severity.low)) with hL
  by_cases h1 : num - H.length > 0 ∧ M ≠ []
  · rw [if_pos h1, take_min_length]
    by_cases h2 : num - (H ++ M.take (num - H.length)).length > 0 ∧ L ≠ []
    · rw [if_pos h2, take_min_length]
      simp [List.append_assoc, Nat.sub_sub]
    · rw [if_neg h2]
      have : L.take (num - H.length - (M.take (num - H.length)).length) = [] := by
        rcases Decidable.not_and_iff_or_not.mp h2 with hz | hz
        · have : num - (H ++ M.take (num - H.length)).length = 0 := by omega
          rw [List.length_append, ← Nat.sub_sub] at this
          rw [this, List.take_zero]
        · rw [Decidable.not_not.mp hz, List.take_nil]
      rw [this, List.append_nil]
  · rw [if_neg h1]
    have hMt : M.take (num - H.length) = [] := by
      rcases Decidable.not_and_iff_or_not.mp h1 with hz | hz
      · have : num - H.length = 0 := by omega
        rw [this, List.take_zero]
      · rw [Decidable.not_not.mp hz, List.take_nil]
    rw [hMt]
    by_cases h2 : num - H.length > 0 ∧ L ≠ []
    · rw [if_pos h2, take_min_length]
      simp
    · rw [if_neg h2]
      have : L.take (num - H.length - ([] : List Alert).length) = [] := by
        rcases Decidable.not_and_iff_or_not.mp h2 with hz | hz
        · have : num - H.length = 0 := by omega
          simp [this]
        · rw [Decidable.not_not.mp hz, List.take_nil]
      rw [this]
      simp

/-- C2: `select_alerts` returns the pool unchanged when it fits the
target; otherwise it keeps every high-severity alert, fills the
remaining budget (floored at 0) first with a pool-order prefix of the
medium tier and then of the low tier, and the result size is
`min |pool| (max |high| target)`. -/
theorem c2_selector_spec (pool : List Alert) (num : Nat) :
    (pool.length ≤ num → select_alerts pool num = pool) ∧
    (num < pool.length →
      (∀ a ∈ pool, a.severity = Severity.high → a ∈ select_alerts pool num) ∧
      select_alerts pool num =
        pool.filter (fun a => decide (a.severity = Severity.high))
        ++ (pool.filter (fun a => decide (a.severity = Severity.medium))).take
             (num - (pool.filter (fun a => decide (a.severity = Severity.high))).length)
        ++ (pool.filter (fun a => decide (a.severity = Severity.low))).take
             (num - (pool.filter (fun a => decide (a.severity = Severity.high))).length
              - ((pool.filter (fun a => decide (a.severity = Severity.medium))).take
                  (num - (pool.filter (fun a => decide (a.severity = Severity.high))).length)).length) ∧
      (select_alerts pool num).length =
        min pool.length
          (max (pool.filter (fun a => decide (a.severity = Severity.high))).length num)) := by
  constructor
  · intro hle
    unfold select_alerts
    rw [if_neg (by omega)]
  · intro hgt
    have hstruct := select_alerts_structure pool num hgt
    refine ⟨?_, hstruct, ?_⟩
    · intro a ha hsev
      rw [hstruct]
      exact List.mem_append_left _ (List.mem_append_left _
        (List.mem_filter.mpr ⟨ha, by simp [hsev]⟩))
    · have hpart := length_filter_partition pool
      rw [hstruct]
      simp only [List.length_append, List.length_take]
      omega

/-- Witness for C2: on a pool of 2 high + 5 medium alerts with target
4, the selection has size `min 7 (max 2 4) = 4`. -/
theorem c2_selector_spec_witness :
    4 < sample_pool.length ∧
    (select_alerts sample_pool 4).length =
      min sample_pool.length
        (max (sample_pool.filter (fun a => decide (a.severity = Severity.high))).length 4) :=
  ⟨by decide, ((c2_selector_spec sample_pool 4).2 (by decide)).2.2⟩

/-- Members of a severity filter have that severity. -/
theorem sev_of_mem_filter {pool : List Alert} {v : Severity} {a : Alert}
    (h : a ∈ pool.filter (fun a => decide (a.severity = v))) : a.severity = v := by
  simpa using (List.mem_filter.mp h).2

/-- C10: whenever the pool exceeds the target count, the selected
sequence is ordered by severity tier — highs first, then the chosen
mediums, then the chosen lows — and within each tier it is a pool-order
prefix of that tier. -/
theorem c10_tier_order (pool : List Alert) (num : Nat) (h : num < pool.length) :
    List.Pairwise (fun x y : Alert => sevRank y.severity ≤ sevRank x.severity)
      (select_alerts pool num) ∧
    (∀ v : Severity, ∃ k : Nat,
      (select_alerts pool num).filter (fun a => decide (a.severity = v)) =
        (pool.filter (fun a => decide (a.severity = v))).take k) := by
  have hstruct := select_alerts_structure pool num h
  set H := pool.filter (fun a => decide (a.severity = Severity.high)) with hH
  set M := pool.filter (fun a => decide (a.severity = Severity.medium)) with hM
  set L := pool.filter (fun a => decide (a.severity = Severity.low)) with hL
  set b := num - H.length with hb
  set t := num - H.length - (M.take b).length with ht
  have memH : ∀ a ∈ H, a.severity = Severity.high := fun a ha => sev_of_mem_filter ha
  have memM : ∀ a ∈ M.take b, a.severity = Severity.medium :=
    fun a ha => sev_of_mem_filter (List.mem_of_mem_take ha)
  have memL : ∀ a ∈ L.take t, a.severity = Severity.low :=
    fun a ha => sev_of_mem_filter (List.mem_of_mem_take ha)
  constructor
  · rw [hstruct]
    rw [List.pairwise_append]
    refine ⟨?_, ?_, ?_⟩
    · rw [List.pairwise_append]
      refine ⟨?_, ?_, ?_⟩
      · exact List.pairwise_of_forall_mem_list
          (fun a ha c hc => by rw [memH a ha, memH c hc])
      · exact List.pairwise_of_forall_mem_list
          (fun a ha c hc => by rw [memM a ha, memM c hc])
      · intro a ha c hc
        rw [memH a ha, memM c hc]
        decide
    · exact List.pairwise_of_forall_mem_list
        (fun a ha c hc => by rw [memL a ha, memL c hc])
    · intro a ha c hc
      rw [memL c hc]
      rcases List.mem_append.mp ha with hm | hl
      · rw [memH a hm]; decide
      · rw [memM a hl]; decide
  · intro v
    have hHf : H.filter (fun a => decide (a.severity = v)) =
        if v = Severity.high then H else [] := by
      split
      · next hv =>
        subst hv
        exact List.filter_eq_self.mpr (fun a ha => by simp [memH a ha])
      · next hv =>
        exact List.filter_eq_nil_iff.mpr (fun a ha => by
          rw [memH a ha]
          simpa using fun e => hv e.symm)
    have hMf : (M.take b).filter (fun a => decide (a.severity = v)) =
        if v = Severity.medium then M.take b else [] := by
      split
      · next hv =>
        subst hv
        exact List.filter_eq_self.mpr (fun a ha => by simp [memM a ha])
      · next hv =>
        exact List.filter_eq_nil_iff.mpr (fun a ha => by
          rw [memM a ha]
          simpa using fun e => hv e.symm)
    have hLf : (L.take t).filter (fun a => decide (a.severity = v)) =
        if v = Severity.low then L.take t else [] := by
      split
      · next hv =>
        subst hv
        exact List.filter_eq_self.mpr (fun a ha => by simp [memL a ha])
      · next hv =>
        exact List.filter_eq_nil_iff.mpr (fun a ha => by
          rw [memL a ha]
          simpa using fun e => hv e.symm)
    rw [hstruct]
    cases v with
    | high =>
      refine ⟨H.length, ?_⟩
      simp only [List.filter_append, hHf, hMf, hLf]
      simp [← hH, List.take_length]
    | medium =>
      refine ⟨b, ?_⟩
      simp only [List.filter_append, hHf, hMf, hLf]
      simp [← hM]
    | low =>
      refine ⟨t, ?_⟩
      simp only [List.filter_append, hHf, hMf, hLf]
      simp [← hL]

/-- Witness for C10: on the fixed test pool with target 4 the selected
alerts are tier-ordered. -/
theorem c10_tier_order_witness :
    4 < sample_pool.length ∧
    List.Pairwise (fun x y : Alert => sevRank y.severity ≤ sevRank x.severity)
      (select_alerts sample_pool 4) :=
  ⟨by decide, (c10_tier_order sample_pool 4 (by decide)).1⟩

/-- Appending sampled lists from disjoint pools keeps them duplicate
free, and the result lives in the appended pool. -/
theorem nodup_chain {l1 l2 p1 p2 : List String}
    (h1 : l1.Nodup) (h2 : l2.Nodup)
    (s1 : ∀ x ∈ l1, x ∈ p1) (s2 : ∀ x ∈ l2, x ∈ p2)
    (hd : ∀ x ∈ p1, x ∉ p2) :
    (l1 ++ l2).Nodup ∧ ∀ x ∈ l1 ++ l2, x ∈ p1 ++ p2 := by
  constructor
  · exact h1.append h2 (fun x hx1 hx2 => hd x (s1 x hx1) (s2 x hx2))
  · intro x hx
    rcases List.mem_append.mp hx with h | h
    · exact List.mem_append_left _ (s1 x h)
    · exact List.mem_append_right _ (s2 x h)

/-- Three-piece version of `nodup_chain` for the final tip list. -/
theorem nodup_append3 {r2 sw mons p1 p2 p3 : List String}
    (h2 : r2.Nodup) (hsw : sw.Nodup) (hm : mons.Nodup)
    (s2 : ∀ x ∈ r2, x ∈ p1) (ssw : ∀ x ∈ sw, x ∈ p2) (sm : ∀ x ∈ mons, x ∈ p3)
    (d12 : ∀ x ∈ p1, x ∉ p2) (d13 : ∀ x ∈ p1, x ∉ p3) (d23 : ∀ x ∈ p2, x ∉ p3) :
    (r2 ++ sw ++ mons).Nodup := by
  have step1 := nodup_chain h2 hsw s2 ssw d12
  refine (nodup_chain step1.1 hm step1.2 sm ?_).1
  intro x hx
  rcases List.mem_append.mp hx with h | h
  · exact d13 x h
  · exact d23 x h

/-- C7: for every sampler behaving like `random.sample` (distinct
elements drawn from the given pool), every month, destination and risk
assessment, the recommendation list contains no duplicate strings: the
fixed tip pools are pairwise disjoint and each is sampled without
replacement at most once. -/
theorem c7_no_duplicate_tips (sample : List String → Nat → List String)
    (hnd : ∀ p k, p.Nodup → (sample p k).Nodup)
    (hmem : ∀ p k, ∀ x ∈ sample p k, x ∈ p)
    (month : Nat) (country city : String) (ra : RiskAssessment) :
    (generate_personalized_tips sample month country city ra).Nodup := by
  have hA := hnd safety_phrases (min 3 safety_phrases.length) (by decide)
  have hAs := hmem safety_phrases (min 3 safety_phrases.length)
  have hB := hnd high_risk_recommendations (min 2 high_risk_recommendations.length) (by decide)
  have hBs := hmem high_risk_recommendations (min 2 high_risk_recommendations.length)
  have hr2 : (if ra.risk_score > 6/10 then
        sample safety_phrases (min 3 safety_phrases.length) ++
          sample high_risk_recommendations (min 2 high_risk_recommendations.length)
      else sample safety_phrases (min 3 safety_phrases.length)).Nodup ∧
      ∀ x ∈ (if ra.risk_score > 6/10 then
        sample safety_phrases (min 3 safety_phrases.length) ++
          sample high_risk_recommendations (min 2 high_risk_recommendations.length)
      else sample safety_phrases (min 3 safety_phrases.length)),
        x ∈ safety_phrases ++ high_risk_recommendations := by
    split
    · exact nodup_chain hA hB hAs hBs (by decide)
    · exact ⟨hA, fun x hx => List.mem_append_left _ (hAs x hx)⟩
  unfold generate_personalized_tips
  dsimp only
  split
  · -- seasonal weather branch: base ++ summer/winter ++ monsoon
    have hsw : (if month ∈ [6, 7, 8] then
          (if lower country ∈ ["united states", "mexico", "caribbean"] then
            sample storm_recs 1 else [])
          ++ (if lower country ∈ ["egypt", "india", "saudi arabia"] then
            sample heat_recs 1 else [])
        else if month ∈ [12, 1, 2] then
          (if lower country ∈ ["canada", "russia", "sweden", "norway"] then
            sample cold_recs 1 else [])
        else []).Nodup ∧
        ∀ x ∈ (if month ∈ [6, 7, 8] then
          (if lower country ∈ ["united states", "mexico", "caribbean"] then
            sample storm_recs 1 else [])
          ++ (if lower country ∈ ["egypt", "india", "saudi arabia"] then
            sample heat_recs 1 else [])
        else if month ∈ [12, 1, 2] then
          (if lower country ∈ ["canada", "russia", "sweden", "norway"] then
            sample cold_recs 1 else [])
        else []), x ∈ storm_recs ++ heat_recs ++ cold_recs := by
      have hs1 : (if lower country ∈ ["united states", "mexico", "caribbean"] then
            sample storm_recs 1 else []).Nodup ∧
          ∀ x ∈ (if lower country ∈ ["united states", "mexico", "caribbean"] then
            sample storm_recs 1 else []), x ∈ storm_recs := by
        split
        · exact ⟨hnd _ _ (by decide), hmem _ _⟩
        · exact ⟨List.nodup_nil, by simp⟩
      have hs2 : (if lower country ∈ ["egypt", "india", "saudi arabia"] then
            sample heat_recs 1 else []).Nodup ∧
          ∀ x ∈ (if lower country ∈ ["egypt", "india", "saudi arabia"] then
            sample heat_recs 1 else []), x ∈ heat_recs := by
        split
        · exact ⟨hnd _ _ (by decide), hmem _ _⟩
        · exact ⟨List.nodup_nil, by simp⟩
      split
      · have hch := nodup_chain hs1.1 hs2.1 hs1.2 hs2.2 (by decide)
        exact ⟨hch.1, fun x hx => List.mem_append_left _ (hch.2 x hx)⟩
      · split
        · constructor
          · split
            · exact hnd _ _ (by decide)
            · exact List.nodup_nil
          · intro x hx
            refine List.mem_append_right _ ?_
            rcases (by assumption :
                x ∈ (if lower country ∈ ["canada", "russia", "sweden", "norway"] then
                  sample cold_recs 1 else [])) with _
            revert hx
            split
            · exact fun hx => hmem _ _ x hx
            · intro hx; cases hx
        · exact ⟨List.nodup_nil, by simp⟩
    have hmons : (if month ∈ [6, 7, 8, 9] ∧ lower country ∈ ["india", "thailand", "vietnam"] then
          sample flood_recs 1 else []).Nodup ∧
        ∀ x ∈ (if month ∈ [6, 7, 8, 9] ∧ lower country ∈ ["india", "thailand", "vietnam"] then
          sample flood_recs 1 else []), x ∈ flood_recs := by
      split
      · exact ⟨hnd _ _ (by decide), hmem _ _⟩
      · exact ⟨List.nodup_nil, by simp⟩
    exact nodup_append3 hr2.1 hsw.1 hmons.1 hr2.2 hsw.2 hmons.2
      (by decide) (by decide) (by decide)
  · exact hr2.1

/-- Witness for C7: a concrete run (India in July, high risk, seasonal
factor active — so base, high-risk, heat and flood pools all
contribute) yields a duplicate-free list. -/
theorem c7_no_duplicate_tips_witness :
    (generate_personalized_tips take_sampler 7 "india" "Mumbai"
      { risk_score := 7/10, confidence := 1/2,
        factors := ["seasonal weather conditions"] }).Nodup :=
  c7_no_duplicate_tips take_sampler
    (fun p k hp => (List.take_sublist k p).nodup hp)
    (fun p k x hx => List.mem_of_mem_take hx)
    7 "india" "Mumbai" _

/-- C9: with the clock fixed (same month, same timestamp) and the
pseudo-random source fixed (two oracles agreeing on every draw), two
invocations of the alert pipeline on identical inputs produce identical
output. -/
theorem c9_determinism (g g2 : Nat → Nat) (month : Nat) (now country city : String)
    (fw fa fi : Bool) (h : ∀ n, g n = g2 n) :
    ai_analysis g month now country city fw fa fi =
      ai_analysis g2 month now country city fw fa fi := by
  rw [funext h]

/-- Witness for C9: two runs with the identity oracle coincide. -/
theorem c9_determinism_witness :
    ai_analysis (fun n => n) 7 "t" "india" "" true true true =
      ai_analysis (fun n => n) 7 "t" "india" "" true true true :=
  c9_determinism (fun n => n) (fun n => n) 7 "t" "india" "" true true true (fun _ => rfl)

/-- No alert built by the weather block carries the city-crime source
tag. -/
theorem weather_no_crime_source (sev : Severity) (month : Nat)
    (now country city : String) (factors : List String) (rs : ℚ) :
    ∀ a ∈ weather_section sev month now country city factors rs,
      a.source ≠ "AI Crime Pattern Analysis" := by
  intro a ha
  unfold weather_section at ha
  dsimp only at ha
  repeat' split at ha
  all_goals
    simp only [List.mem_append, List.mem_singleton, List.not_mem_nil,
      or_false, false_or] at ha
  all_goals first
    | (rcases ha with (rfl | rfl) <;> (dsimp only; decide))
    | (rcases ha with rfl; dsimp only; decide)

/-- No alert built by the incident block carries the city-crime source
tag. -/
theorem incident_no_crime_source (g : Nat → Nat) (i : Nat) (rs : ℚ)
    (now country city : String) :
    ∀ a ∈ (incident_section g i rs now country city).1,
      a.source ≠ "AI Crime Pattern Analysis" := by
  intro a ha
  unfold incident_section at ha
  dsimp only at ha
  split at ha
  · simp only [List.mem_map, List.mem_range] at ha
    obtain ⟨k, _, rfl⟩ := ha
    dsimp only
    decide
  · split at ha
    · simp only [List.mem_singleton] at ha
      rcases ha with rfl
      dsimp only
      decide
    · cases ha

/-- When the country is on the extreme-risk list, the advisory block
never emits the city-crime alert: the source's `elif` makes the two
special advisories mutually exclusive. -/
theorem advisory_no_crime_of_extreme (g : Nat → Nat) (i : Nat) (rs : ℚ)
    (now country city : String)
    (hext : lower country ∈ ["afghanistan", "syria", "yemen", "somalia"]) :
    ∀ a ∈ (advisory_section g i rs now country city).1,
      a.source ≠ "AI Crime Pattern Analysis" := by
  intro a ha
  unfold advisory_section at ha
  dsimp only at ha
  rw [if_pos hext] at ha
  repeat' split at ha
  all_goals
    simp only [List.mem_append, List.mem_singleton, List.not_mem_nil,
      or_false, false_or] at ha
  all_goals first
    | (rcases ha with (rfl | rfl) <;> (dsimp only; decide))
    | (rcases ha with rfl; dsimp only; decide)

/-- The advisory block always emits its band-dependent base advisory. -/
theorem advisory_has_base (g : Nat → Nat) (i : Nat) (rs : ℚ)
    (now country city : String) :
    ∃ a ∈ (advisory_section g i rs now country city).1,
      a.type = "advisory" ∧
      a.source ∈ ["AI Risk Analysis", "AI Security Analysis", "AI Advisory System"] := by
  unfold advisory_section
  dsimp only
  split
  · exact ⟨_, List.mem_append_left _ (List.mem_singleton.mpr rfl), rfl,
      by dsimp only; decide⟩
  · split
    · exact ⟨_, List.mem_append_left _ (List.mem_singleton.mpr rfl), rfl,
        by dsimp only; decide⟩
    · exact ⟨_, List.mem_append_left _ (List.mem_singleton.mpr rfl), rfl,
        by dsimp only; decide⟩

/-- When the country is on the extreme-risk list, the advisory block
emits the fixed "Extreme Risk Warning" alert. -/
theorem advisory_has_extreme (g : Nat → Nat) (i : Nat) (rs : ℚ)
    (now country city : String)
    (hext : lower country ∈ ["afghanistan", "syria", "yemen", "somalia"]) :
    ∃ a ∈ (advisory_section g i rs now country city).1,
      a.title = "Extreme Risk Warning" := by
  unfold advisory_section
  dsimp only
  rw [if_pos hext]
  exact ⟨_, List.mem_append_right _ (List.mem_singleton.mpr rfl), rfl⟩

/-- Reduction for a branch on the literal `true`. -/
theorem bool_if_true {α : Sort u} (x y : α) : (if (true : Bool) then x else y) = x := rfl

/-- Reduction for a branch on the literal `false`. -/
theorem bool_if_false {α : Sort u} (x y : α) : (if (false : Bool) then x else y) = y := rfl

/-- With the advisory filter on and an extreme-risk country, no alert
of the whole candidate pool carries the city-crime source tag — the
`elif` in the advisory block suppresses the city alert. -/
theorem pool_no_crime_of_extreme (g : Nat → Nat) (month : Nat)
    (now country city : String) (fw fi : Bool)
    (hext : lower country ∈ ["afghanistan", "syria", "yemen", "somalia"]) :
    ∀ a ∈ generate_pool g month now country city fw true fi,
      a.source ≠ "AI Crime Pattern Analysis" := by
  intro a ha
  unfold generate_pool at ha
  dsimp only at ha
  rcases List.mem_append.mp ha with h12 | hinc
  · rcases List.mem_append.mp h12 with hw | hadv
    · cases fw
      · rw [bool_if_false] at hw
        exact absurd hw (by simp)
      · rw [bool_if_true] at hw
        exact weather_no_crime_source _ _ _ _ _ _ _ a hw
    · exact advisory_no_crime_of_extreme g _ _ now country city hext a hadv
  · cases fi
    · rw [bool_if_false] at hinc
      exact absurd hinc (by simp)
    · rw [bool_if_true] at hinc
      exact incident_no_crime_source g _ _ now country city a hinc

/-- C4 counterexample: there is *no* input at all — no month, oracle,
timestamp, casing, or filter combination — whose country is on the
extreme-risk list and whose city is on the high-crime-city list such
that the base advisory, the "avoid all travel" alert and the
high-crime-city alert all appear together in the candidate pool: the
source's `elif` makes the latter two mutually exclusive. -/
theorem c4_counterexample :
    (∃ (month : Nat) (g : Nat → Nat) (now country city : String) (fw fi : Bool),
      lower country ∈ ["afghanistan", "syria", "yemen", "somalia"] ∧
      lower city ∈ ["rio de janeiro", "caracas", "kabul", "tijuana"] ∧
      (∃ a ∈ generate_pool g month now country city fw true fi,
        a.type = "advisory" ∧
        a.source ∈ ["AI Risk Analysis", "AI Security Analysis", "AI Advisory System"]) ∧
      (∃ a ∈ generate_pool g month now country city fw true fi,
        a.title = "Extreme Risk Warning") ∧
      (∃ a ∈ generate_pool g month now country city fw true fi,
        a.source = "AI Crime Pattern Analysis")) ↔ False := by
  constructor
  · rintro ⟨month, g, now, country, city, fw, fi, hext, -, -, -, a, ha, hsrc⟩
    exact pool_no_crime_of_extreme g month now country city fw fi hext a ha hsrc
  · exact False.elim

/-- C4 (amended): with the advisory filter on, the score-band base
advisory is always in the pool, and for a country on the extreme-risk
list the "Extreme Risk Warning" alert joins it — but the
high-crime-city alert is then *never* generated (the source uses
`elif`, so extreme-country and high-crime-city advisories are mutually
exclusive rather than independent; the city alert can co-occur only
with the base advisory, when the country is not extreme). -/
theorem c4_amended (g : Nat → Nat) (month : Nat) (now country city : String)
    (fw fi : Bool)
    (hext : lower country ∈ ["afghanistan", "syria", "yemen", "somalia"]) :
    (∃ a ∈ generate_pool g month now country city fw true fi,
      a.title = "Extreme Risk Warning") ∧
    (∃ a ∈ generate_pool g month now country city fw true fi,
      a.type = "advisory" ∧
      a.source ∈ ["AI Risk Analysis", "AI Security Analysis", "AI Advisory System"]) ∧
    (∀ a ∈ generate_pool g month now country city fw true fi,
      a.source ≠ "AI Crime Pattern Analysis") := by
  refine ⟨?_, ?_, pool_no_crime_of_extreme g month now country city fw fi hext⟩
  · unfold generate_pool
    dsimp only
    obtain ⟨a, ha, ht⟩ := advisory_has_extreme g _ _ now country city hext
    exact ⟨a, List.mem_append_left _ (List.mem_append_right _ ha), ht⟩
  · unfold generate_pool
    dsimp only
    obtain ⟨a, ha, h1, h2⟩ := advisory_has_base g _ _ now country city
    exact ⟨a, List.mem_append_left _ (List.mem_append_right _ ha), h1, h2⟩

/-- Witness for C4 (amended): Afghanistan/Kabul with only the advisory
filter on. -/
theorem c4_amended_witness :
    lower "afghanistan" ∈ ["afghanistan", "syria", "yemen", "somalia"] ∧
    ((∃ a ∈ generate_pool (fun _ => 0) 5 "t" "afghanistan" "kabul" false true false,
        a.title = "Extreme Risk Warning") ∧
     (∃ a ∈ generate_pool (fun _ => 0) 5 "t" "afghanistan" "kabul" false true false,
        a.type = "advisory" ∧
        a.source ∈ ["AI Risk Analysis", "AI Security Analysis", "AI Advisory System"]) ∧
     (∀ a ∈ generate_pool (fun _ => 0) 5 "t" "afghanistan" "kabul" false true false,
        a.source ≠ "AI Crime Pattern Analysis")) :=
  ⟨by decide, c4_amended (fun _ => 0) 5 "t" "afghanistan" "kabul" false false (by decide)⟩

/-- Witness for C8 (amended): "france" with no city and no seasonal
window has an empty specific-factor set and score 0.3, so the
placeholder is (correctly) absent on both sides of the equivalence. -/
theorem c8_amended_witness :
    ("france" : String) ≠ "" ∧
    ("combined risk factors" ∈ (assess_risk (mkModel 1) "france" "").factors ↔
      ("general country advisory" ∉ (assess_risk (mkModel 1) "france" "").factors ∧
       "seasonal weather conditions" ∉ (assess_risk (mkModel 1) "france" "").factors ∧
       "specific location risks" ∉ (assess_risk (mkModel 1) "france" "").factors ∧
       (assess_risk (mkModel 1) "france" "").risk_score > 4/10)) :=
  ⟨by decide, c8_amended 1 "france" "" (by decide)⟩
